import Mathlib

/-!
Shallow embedding of the vislum DXC shim (src/vislum-dxc/cpp): the C-style
shim in shim.cpp, the C++ wrapper classes in wrapper.h and the encoding
helper in conv.h. Calls into the native DXC library (blob objects,
HRESULT-returning methods, dlopen/dlsym) are modelled as explicit
environment values supplied to each operation; a null-pointer dereference
is modelled by `Option`, with `none` standing for the fault. Pointers and
opaque handles are modelled as numeric identifiers.
-/

/-- HRESULTs are 32-bit signed integers, modelled as `Int`; a failing
HRESULT is a negative one (the sign bit set). -/
def FAILED (hr : Int) : Bool := hr < 0

/-- The success HRESULT. -/
def S_OK : Int := 0

/-- The generic failure HRESULT 0x80004005 as a signed 32-bit value. -/
def E_FAIL : Int := -2147467259

/-- The not-implemented HRESULT 0x80004001 as a signed 32-bit value. -/
def E_NOTIMPL : Int := -2147467263

/-- The code-page tag for UTF-8 buffers (dxcapi's CP_UTF8). -/
def CP_UTF8 : Nat := 65001

/-- UTF-8 encoding of one Unicode scalar value as bytes. -/
def utf8EncodeScalar (c : Nat) : List Nat :=
  if c < 0x80 then [c]
  else if c < 0x800 then [0xC0 + c / 0x40, 0x80 + c % 0x40]
  else if c < 0x10000 then
    [0xE0 + c / 0x1000, 0x80 + c / 0x40 % 0x40, 0x80 + c % 0x40]
  else
    [0xF0 + c / 0x40000, 0x80 + c / 0x1000 % 0x40, 0x80 + c / 0x40 % 0x40,
     0x80 + c % 0x40]

/-- Combine a sequence of UTF-16 code units into Unicode scalar values:
surrogate pairs are combined, an unpaired surrogate becomes U+FFFD. -/
def utf16Scalars : List Nat → List Nat
  | [] => []
  | [u] => if 0xD800 ≤ u ∧ u < 0xDC00 then [0xFFFD] else [u]
  | u :: v :: rest =>
    if 0xD800 ≤ u ∧ u < 0xDC00 then
      if 0xDC00 ≤ v ∧ v < 0xE000 then
        (0x10000 + (u - 0xD800) * 0x400 + (v - 0xDC00)) :: utf16Scalars rest
      else 0xFFFD :: utf16Scalars (v :: rest)
    else u :: utf16Scalars (v :: rest)

/-- Modelled from the spec: `utf16_to_utf8` is called by wrapper.h (to
decode include paths and UTF-16 diagnostic buffers) but its definition is
not among the repository files under src/. Per the spec, the buffer "is
decoded from UTF-16 to UTF-8": the NUL-terminated wide string is read up to
its terminator and re-encoded as UTF-8 bytes. -/
def utf16_to_utf8 (units : List Nat) : List Nat :=
  List.flatten ((utf16Scalars (units.takeWhile (· ≠ 0))).map utf8EncodeScalar)

/-- Reinterpret a byte buffer as 16-bit code units, little endian, as the
cast of the blob pointer to LPWSTR does on the target platform. -/
def bytesToU16LE : List Nat → List Nat
  | [] => []
  | [b] => [b]
  | b0 :: b1 :: rest => (b0 + 0x100 * b1) :: bytesToU16LE rest

/-- The UTF-8 bytes of a string literal, as C sees them. -/
def strBytes (s : String) : List Nat := s.toUTF8.toList.map (fun b => b.toNat)

/-- conv.h's fallback text when GetEncoding fails. -/
def unknownEncodingMessage : List Nat :=
  strBytes "Unknown error. Failed to retrieve encoding"

/-- Model of a native IDxcBlobEncoding object: the HRESULT its GetEncoding
call returns, the code page it reports, and the raw buffer bytes. -/
structure IDxcBlobEncoding where
  getEncodingHr : Int
  codePage : Nat
  bytes : List Nat
deriving DecidableEq

/-- conv.h extract_utf8_error_message: reads the blob's encoding — the
failing case yields a fixed fallback string — and otherwise copies
buffer_size bytes into the message. The argument is the possibly null
CComPtr and on a null blob the GetEncoding call dereferences a null
pointer, modelled as `none`. -/
def extract_utf8_error_message : Option IDxcBlobEncoding → Option (List Nat)
  | none => none
  | some blob =>
    if FAILED blob.getEncodingHr then some unknownEncodingMessage
    else some blob.bytes

/-! ## Status enumerations (shim.cpp:8-16 and wrapper.h:15-21) -/

/-- shim.cpp Status value. -/
def DXC_SHIM_STATUS_OK : Nat := 0

/-- shim.cpp Status value. -/
def DXC_SHIM_STATUS_FAILED_TO_OPEN_LIBRARY : Nat := 1

/-- shim.cpp Status value. -/
def DXC_SHIM_STATUS_FAILED_TO_CREATE_INSTANCE : Nat := 2

/-- shim.cpp Status value. -/
def DXC_SHIM_STATUS_FAILED_TO_CREATE_COMPILER : Nat := 3

/-- shim.cpp Status value. -/
def DXC_SHIM_STATUS_FAILED_TO_CREATE_UTILS : Nat := 4

/-- wrapper.h DxcShimStatus value (uint8_t). -/
def DxcShimStatus.Ok : Nat := 0

/-- wrapper.h DxcShimStatus value (uint8_t): the source assigns 2. -/
def DxcShimStatus.OpenLibraryError : Nat := 2

/-- wrapper.h DxcShimStatus value (uint8_t): the source assigns 2 here as
well, the same value as OpenLibraryError. -/
def DxcShimStatus.GetCreateInstance2SymbolError : Nat := 2

/-- wrapper.h DxcShimStatus value (uint8_t). -/
def DxcShimStatus.GetDxcCompilerInstanceError : Nat := 3

/-- wrapper.h DxcShimStatus value (uint8_t). -/
def DxcShimStatus.GetDxcUtilsInstanceError : Nat := 4

/-! ## Loader (shim.cpp:121-137, wrapper.h:35-61) -/

/-- Environment of one open call: what dlopen and dlsym return, `none`
standing for NULL. -/
structure LoaderEnv where
  dlopenResult : Option Nat
  dlsymResult : Option Nat
deriving DecidableEq

/-- The C shim's Loader record: the library handle and the possibly null
DxcCreateInstance2 function pointer. -/
structure Loader where
  handle : Nat
  createInstance2 : Option Nat
deriving DecidableEq

/-- shim.cpp dxc_shim_loader_open: fails when dlopen returns NULL, and
stores the dlsym result without checking it. -/
def dxc_shim_loader_open (env : LoaderEnv) : Nat × Option Loader :=
  match env.dlopenResult with
  | none => (DXC_SHIM_STATUS_FAILED_TO_OPEN_LIBRARY, none)
  | some h =>
    (DXC_SHIM_STATUS_OK, some { handle := h, createInstance2 := env.dlsymResult })

/-- wrapper.h DxcShimLoader constructor: checks both the dlopen and the
dlsym result, throwing the corresponding DxcShimStatus on failure. -/
def DxcShimLoader.construct (env : LoaderEnv) : Except Nat (Nat × Nat) :=
  match env.dlopenResult with
  | none => .error DxcShimStatus.OpenLibraryError
  | some h =>
    match env.dlsymResult with
    | none => .error DxcShimStatus.GetCreateInstance2SymbolError
    | some p => .ok (h, p)

/-! ## Compiler creation (shim.cpp:139-156, wrapper.h:157-170) -/

/-- Environment of one create call: the HRESULT and the created object for
each of the two createInstance2 invocations (engine, then utils). -/
structure CreateEnv where
  engineHr : Int
  engineObj : Nat
  utilsHr : Int
  utilsObj : Nat
deriving DecidableEq

/-- The C shim's Compiler record: its two CComPtr members, `none` for a
null one. -/
structure Compiler where
  compiler : Option Nat
  utils : Option Nat
deriving DecidableEq

/-- The COM references released by the CComPtr members' destructors when a
Compiler record is deleted: every non-null held object. -/
def Compiler.releaseAll (c : Compiler) : List Nat :=
  c.compiler.toList ++ c.utils.toList

/-- Outcome of a create call: the returned status, the handle exposed on
success, and the native objects released on the way out. -/
structure CreateOutcome where
  status : Nat
  handle : Option Compiler
  released : List Nat
deriving DecidableEq

/-- shim.cpp dxc_shim_create_compiler: allocates the record, creates the
engine then the utils object, and on either failure deletes the record
(releasing whatever its CComPtr members hold) before returning the
branch's status. -/
def dxc_shim_create_compiler (env : CreateEnv) : CreateOutcome :=
  let c0 : Compiler := { compiler := none, utils := none }
  if FAILED env.engineHr then
    { status := DXC_SHIM_STATUS_FAILED_TO_CREATE_COMPILER, handle := none,
      released := c0.releaseAll }
  else
    let c1 : Compiler := { c0 with compiler := some env.engineObj }
    if FAILED env.utilsHr then
      { status := DXC_SHIM_STATUS_FAILED_TO_CREATE_UTILS, handle := none,
        released := c1.releaseAll }
    else
      { status := DXC_SHIM_STATUS_OK,
        handle := some { c1 with utils := some env.utilsObj }, released := [] }

/-- The sub-objects a create call acquires from the native factory, in
order: the engine when its creation succeeds, then utils when reached and
successful. Stated from the spec's words, for comparison with the list a
failing call releases. -/
def specAcquiredSubObjects (env : CreateEnv) : List Nat :=
  if FAILED env.engineHr then []
  else env.engineObj :: (if FAILED env.utilsHr then [] else [env.utilsObj])

/-! ## Include handlers: reference counting (shim.cpp:53-89, wrapper.h:99-155) -/

/-- Reference-count state of a COM object: the 32-bit counter and whether
`delete this` has run. -/
structure RefState where
  refCount : Nat
  destroyed : Bool
deriving DecidableEq

/-- shim.cpp IncludeHandler::AddRef: an atomic add-and-fetch — the counter
is incremented (32-bit wraparound made explicit) and the new value is
returned. -/
def IncludeHandler.AddRef (s : RefState) : Nat × RefState :=
  let n := (s.refCount + 1) % 4294967296
  (n, { s with refCount := n })

/-- shim.cpp IncludeHandler::Release: an atomic sub-and-fetch — the counter
is decremented, the object is deleted exactly when the new value is zero,
and the new value is returned. -/
def IncludeHandler.Release (s : RefState) : Nat × RefState :=
  let n := (s.refCount + 4294967295) % 4294967296
  if n = 0 then (n, { refCount := n, destroyed := true })
  else (n, { s with refCount := n })

/-- shim.cpp IncludeHandler::LoadSource: ignores the requested path, writes
no blob and always returns E_NOTIMPL. -/
def IncludeHandler.LoadSource (_wideFilename : List Nat) :
    Int × Option IDxcBlobEncoding :=
  (E_NOTIMPL, none)

/-- wrapper.h DxcShimIncludeHandler::AddRef: `return m_refCount++` — the
counter is incremented but the value returned is the old count. -/
def DxcShimIncludeHandler.AddRef (s : RefState) : Nat × RefState :=
  (s.refCount, { s with refCount := (s.refCount + 1) % 4294967296 })

/-- wrapper.h DxcShimIncludeHandler::Release: `ULONG refCount = m_refCount--`
— the counter is decremented, but the object is deleted only when the
pre-decrement value was zero, and the pre-decrement value is returned. -/
def DxcShimIncludeHandler.Release (s : RefState) : Nat × RefState :=
  let refCount := s.refCount
  let s2 : RefState := { s with refCount := (s.refCount + 4294967295) % 4294967296 }
  if refCount = 0 then (refCount, { s2 with destroyed := true })
  else (refCount, s2)

/-- wrapper.h DxcShimIncludeHandler's fields: the utils back-reference, the
user callback and its context (as pointer identifiers, the way they are
stored), and the reference-count state, which starts at 1. -/
structure DxcShimIncludeHandler where
  m_utils : Nat
  m_userCallback : Nat
  m_userData : Nat
  rc : RefState
deriving DecidableEq

/-- wrapper.h DxcShimIncludeHandler::LoadSource: decodes the wide path to
UTF-8, invokes the user callback (here passed as the function it points to)
with the path and the context; a null return maps to E_FAIL, otherwise the
returned bytes — up to their NUL terminator, per strlen — are wrapped via
CreateBlob into a fresh CP_UTF8-tagged blob that is detached to the caller,
and a failing CreateBlob has its HRESULT returned unchanged.
`createBlobHr` is the environment's outcome for the CreateBlob call. -/
def DxcShimIncludeHandler.LoadSource (createBlobHr : Int)
    (userCallback : List Nat → Nat → Option (List Nat)) (userData : Nat)
    (wideFilename : List Nat) : Int × Option IDxcBlobEncoding :=
  let filename := utf16_to_utf8 wideFilename
  match userCallback filename userData with
  | none => (E_FAIL, none)
  | some source =>
    if FAILED createBlobHr then (createBlobHr, none)
    else (S_OK, some { getEncodingHr := S_OK, codePage := CP_UTF8,
                       bytes := source.takeWhile (· ≠ 0) })

/-! ## Compilation results (shim.cpp:28-51, wrapper.h:63-97) -/

/-- The C shim's CompilationResult record: the bytecode CComPtr is null
(`none`) whenever the failure constructor made the record. -/
structure CompilationResult where
  successful : Bool
  error_message : List Nat
  bytecode : Option (List Nat)
deriving DecidableEq

/-- shim.cpp CompilationResult::success. -/
def CompilationResult.success (bytecode : Option (List Nat)) : CompilationResult :=
  { successful := true, error_message := [], bytecode := bytecode }

/-- shim.cpp CompilationResult::failure: the error text comes from
extract_utf8_error_message; a null errorBlob makes that helper dereference
null, so the fault (`none`) propagates. -/
def CompilationResult.failure (errorBlob : Option IDxcBlobEncoding) :
    Option CompilationResult :=
  (extract_utf8_error_message errorBlob).map
    (fun msg => { successful := false, error_message := msg, bytecode := none })

/-- wrapper.h DxcShimCompilationResult. -/
structure DxcShimCompilationResult where
  m_isSuccessful : Bool
  m_errorMessage : List Nat
  m_bytecode : List Nat
deriving DecidableEq

/-- wrapper.h DxcShimCompilationResult::success. -/
def DxcShimCompilationResult.success (bytecode : List Nat) :
    DxcShimCompilationResult :=
  { m_isSuccessful := true, m_errorMessage := [], m_bytecode := bytecode }

/-- wrapper.h DxcShimCompilationResult::failure. -/
def DxcShimCompilationResult.failure (errorMessage : List Nat) :
    DxcShimCompilationResult :=
  { m_isSuccessful := false, m_errorMessage := errorMessage, m_bytecode := [] }

/-! ## The compile calls (shim.cpp:158-216, wrapper.h:172-226) -/

/-- Parameter shapes of the compile entry points, read off the source
declarations. -/
inductive CParamType where
  | compilerPtr
  | constCharPtr
  | callbackFnPtr
  | voidPtr
deriving DecidableEq

/-- shim.cpp:158-161 — dxc_shim_compile(Compiler*, const char*). -/
def dxc_shim_compile_params : List CParamType :=
  [CParamType.compilerPtr, CParamType.constCharPtr]

/-- wrapper.h:172 — DxcShimCompiler::compile(const char*,
DxcShimUserCallback, void*). -/
def DxcShimCompiler.compile_params : List CParamType :=
  [CParamType.constCharPtr, CParamType.callbackFnPtr, CParamType.voidPtr]

/-- Environment of one dxc_shim_compile call: the HRESULT of the Compile
invocation itself, the HRESULT GetStatus reports, what GetErrorBuffer
yields (`none` when the out-pointer stays null) and what GetResult
yields. -/
structure ShimCompileEnv where
  compileHr : Int
  statusHr : Int
  errorBlob : Option IDxcBlobEncoding
  bytecodeBlob : Option (List Nat)
deriving DecidableEq

/-- What one dxc_shim_compile call does: the include resolver it constructs
and hands to Compile, and the result it returns, `none` modelling the null
dereference inside CompilationResult::failure. -/
structure ShimCompileTrace where
  includeResolver : List Nat → Int × Option IDxcBlobEncoding
  result : Option CompilationResult

/-- shim.cpp dxc_shim_compile: always installs a fresh IncludeHandler; a
failing Compile call yields failure(nullptr), a failing reported status
yields failure(error_blob), and otherwise the bytecode blob is wrapped in
a success record. -/
def dxc_shim_compile (env : ShimCompileEnv) : ShimCompileTrace :=
  { includeResolver := IncludeHandler.LoadSource,
    result :=
      if FAILED env.compileHr then CompilationResult.failure none
      else if FAILED env.statusHr then CompilationResult.failure env.errorBlob
      else some (CompilationResult.success env.bytecodeBlob) }

/-- shim.cpp dxc_shim_compilation_result_get_error_message: returns
error_message.c_str(), which is never NULL; a NULL return would be
`none`. -/
def dxc_shim_compilation_result_get_error_message (r : CompilationResult) :
    Option (List Nat) :=
  some r.error_message

/-- shim.cpp dxc_shim_compilation_result_get_bytecode: calls
GetBufferPointer and GetBufferSize through the bytecode CComPtr; on a null
blob that is a null dereference, modelled as `none`. -/
def dxc_shim_compilation_result_get_bytecode (r : CompilationResult) :
    Option (List Nat × Nat) :=
  r.bytecode.map (fun b => (b, b.length))

/-- wrapper.h:190-193: the include handler passed to Compile — a fresh
DxcShimIncludeHandler with reference count 1 when a callback is supplied,
the null pointer otherwise. -/
def DxcShimCompiler.makeIncludeHandler (utils : Nat) (userCallback : Option Nat)
    (userData : Nat) : Option DxcShimIncludeHandler :=
  match userCallback with
  | none => none
  | some cb =>
    some { m_utils := utils, m_userCallback := cb, m_userData := userData,
           rc := { refCount := 1, destroyed := false } }

/-- Environment of one wrapper compile call: the HRESULT GetStatus reports,
the error blob GetErrorBuffer yields and the bytecode bytes GetResult
yields. -/
structure WrapperCompileEnv where
  statusHr : Int
  errorBlob : Option IDxcBlobEncoding
  bytecodeBytes : List Nat
deriving DecidableEq

/-- What one wrapper compile call does: the include handler passed to the
engine, and the returned result, `none` modelling a null dereference of the
error blob. -/
structure WrapperCompileTrace where
  handlerPassed : Option DxcShimIncludeHandler
  result : Option DxcShimCompilationResult

/-- wrapper.h DxcShimCompiler::compile: constructs the include handler from
the optional callback and passes it to Compile; on a failing reported
status it reads the error blob's code page — CP_UTF8 keeps the raw bytes
up to their NUL terminator, any other code page goes through the
UTF-16 → UTF-8 decode of the buffer — and on success the bytecode bytes
are copied out into an owned vector. -/
def DxcShimCompiler.compile (utils : Nat) (userCallback : Option Nat)
    (userData : Nat) (env : WrapperCompileEnv) : WrapperCompileTrace :=
  { handlerPassed := DxcShimCompiler.makeIncludeHandler utils userCallback userData,
    result :=
      if FAILED env.statusHr then
        match env.errorBlob with
        | none => none
        | some errorBlob =>
          if errorBlob.codePage = CP_UTF8 then
            some (DxcShimCompilationResult.failure (errorBlob.bytes.takeWhile (· ≠ 0)))
          else
            some (DxcShimCompilationResult.failure
              (utf16_to_utf8 (bytesToU16LE errorBlob.bytes)))
      else some (DxcShimCompilationResult.success env.bytecodeBytes) }

/-! ## Theorems -/

/-- Claim C1: evaluated at the wrapper bridge's initial state (reference
count 1): AddRef returns the old count 1 where the claim says the new count
2, and Release returns 1 and does not destroy the object even though the
count transitions from 1 to 0 — the claim says it returns 0 and destroys
the object exactly there. -/
theorem wrapper_bridge_refcount_diverges :
    DxcShimIncludeHandler.AddRef { refCount := 1, destroyed := false }
      = (1, { refCount := 2, destroyed := false }) ∧
    DxcShimIncludeHandler.Release { refCount := 1, destroyed := false }
      = (1, { refCount := 0, destroyed := false }) := by
  constructor <;> rfl

/-- The C shim's handler does meet the contract the claim states: from a
live count of one more than d, Release returns d and destroys the object
exactly when d is zero. -/
theorem shim_release_destroys_exactly_at_one (d : Nat) (h : d + 1 < 4294967296) :
    IncludeHandler.Release { refCount := d + 1, destroyed := false }
      = (d, { refCount := d, destroyed := d = 0 }) := by
  have hm : (d + 1 + 4294967295) % 4294967296 = d := by
    omega
  by_cases hd : d = 0 <;>
    simp [IncludeHandler.Release, hm, hd]

/-- The C shim's AddRef does return the incremented count. -/
theorem shim_addref_returns_new_count (c : Nat) (h : c + 1 < 4294967296) :
    IncludeHandler.AddRef { refCount := c, destroyed := false }
      = (c + 1, { refCount := c + 1, destroyed := false }) := by
  have hm : (c + 1) % 4294967296 = c + 1 := Nat.mod_eq_of_lt h
  simp [IncludeHandler.AddRef, hm]

/-- Claim C2: evaluated at a failed compile (GetStatus reports a failing
HRESULT): the produced result is a failure record holding a null bytecode
blob, and the C bytecode query dereferences that null blob — a fault,
`none` — instead of reporting a zero-length buffer as the claim and the
entry point's own declaration comment state. -/
theorem failed_result_bytecode_faults :
    ((dxc_shim_compile { compileHr := 0, statusHr := -1,
                         errorBlob := some { getEncodingHr := 0, codePage := 65001,
                                             bytes := [101, 114, 114] },
                         bytecodeBlob := none }).result
      = some { successful := false, error_message := [101, 114, 114],
               bytecode := none }) ∧
    dxc_shim_compilation_result_get_bytecode
        { successful := false, error_message := [101, 114, 114],
          bytecode := none } = none := by
  constructor <;> rfl

/-- Claim C3: evaluated where the Compile invocation itself fails:
dxc_shim_compile passes a null error blob to CompilationResult::failure,
whose extract_utf8_error_message dereferences it — a fault, `none` — rather
than degrading to the best-effort generic message the claim describes. -/
theorem compile_null_blob_faults :
    (dxc_shim_compile { compileHr := E_FAIL, statusHr := 0,
                        errorBlob := none, bytecodeBlob := none }).result
      = none := by
  rfl

/-- The degrade path that does exist: a non-null blob whose GetEncoding
call fails yields conv.h's fixed fallback message. -/
theorem extract_degrades_on_encoding_failure (cp : Nat) (bs : List Nat) :
    extract_utf8_error_message
        (some { getEncodingHr := E_FAIL, codePage := cp, bytes := bs })
      = some unknownEncodingMessage := by
  simp [extract_utf8_error_message, FAILED, E_FAIL]

/-- Claim C4: evaluated at a successful compile result: the C error-message
query returns a non-null pointer to the empty string — `some []` — not
NULL as the claim and the entry point's own declaration comment state. -/
theorem success_error_message_not_null :
    ((dxc_shim_compile { compileHr := 0, statusHr := 0, errorBlob := none,
                         bytecodeBlob := some [3, 2, 35] }).result
      = some (CompilationResult.success (some [3, 2, 35]))) ∧
    dxc_shim_compilation_result_get_error_message
        (CompilationResult.success (some [3, 2, 35])) = some [] := by
  constructor <;> rfl

/-- Claim C5: evaluated at an environment where dlopen succeeds and dlsym
returns NULL: dxc_shim_loader_open returns the Ok status together with a
loader whose createInstance2 pointer is null — the claim says this never
happens — and the wrapper's two statuses for the two failure cases are the
same value, not distinct. -/
theorem loader_open_ok_with_null_entry_point :
    dxc_shim_loader_open { dlopenResult := some 7, dlsymResult := none }
      = (DXC_SHIM_STATUS_OK, some { handle := 7, createInstance2 := none }) ∧
    DxcShimStatus.GetCreateInstance2SymbolError = DxcShimStatus.OpenLibraryError ∧
    DxcShimLoader.construct { dlopenResult := some 7, dlsymResult := none }
      = Except.error DxcShimStatus.OpenLibraryError := by
  refine ⟨rfl, rfl, rfl⟩

/-- Claim C6: compiler creation distinguishes the engine and the utils
failure with distinct statuses, releases every already-acquired sub-object
before returning an error, and exposes a handle — holding both
sub-objects — exactly on the Ok status. -/
theorem dxc_shim_create_compiler_correct (env : CreateEnv) :
    ((dxc_shim_create_compiler env).status = DXC_SHIM_STATUS_OK ↔
      (dxc_shim_create_compiler env).handle
        = some { compiler := some env.engineObj, utils := some env.utilsObj }) ∧
    ((dxc_shim_create_compiler env).status ≠ DXC_SHIM_STATUS_OK →
      (dxc_shim_create_compiler env).handle = none ∧
      (dxc_shim_create_compiler env).released = specAcquiredSubObjects env) ∧
    (FAILED env.engineHr = true →
      (dxc_shim_create_compiler env).status
        = DXC_SHIM_STATUS_FAILED_TO_CREATE_COMPILER) ∧
    (FAILED env.engineHr = false → FAILED env.utilsHr = true →
      (dxc_shim_create_compiler env).status
        = DXC_SHIM_STATUS_FAILED_TO_CREATE_UTILS) ∧
    DXC_SHIM_STATUS_FAILED_TO_CREATE_COMPILER
      ≠ DXC_SHIM_STATUS_FAILED_TO_CREATE_UTILS := by
  cases h1 : FAILED env.engineHr <;> cases h2 : FAILED env.utilsHr <;>
    simp [dxc_shim_create_compiler, specAcquiredSubObjects, Compiler.releaseAll,
      h1, h2, DXC_SHIM_STATUS_OK, DXC_SHIM_STATUS_FAILED_TO_CREATE_COMPILER,
      DXC_SHIM_STATUS_FAILED_TO_CREATE_UTILS]

/-- Claim C7 counterexample: the C-callable compile entry point's parameter
list contains neither a callback-function-pointer parameter nor an opaque
context parameter. -/
theorem c_compile_has_no_callback_param :
    ¬ (CParamType.callbackFnPtr ∈ dxc_shim_compile_params ∧
       CParamType.voidPtr ∈ dxc_shim_compile_params) := by
  decide

/-- Claim C7 as amended: in the wrapper, a supplied include callback leads
to an Include Bridge — initial reference count 1 — being constructed and
passed to the engine for that call, and no handler is passed when no
callback is supplied; the wrapper's compile method takes the callback plus
opaque context, while the C-callable dxc_shim_compile takes only the
compiler handle and the source text. -/
theorem compile_include_bridge_wiring (utils userData : Nat)
    (userCallback : Option Nat) (env : WrapperCompileEnv) :
    ((DxcShimCompiler.compile utils userCallback userData env).handlerPassed
      = DxcShimCompiler.makeIncludeHandler utils userCallback userData) ∧
    (∀ cb, DxcShimCompiler.makeIncludeHandler utils (some cb) userData
      = some { m_utils := utils, m_userCallback := cb, m_userData := userData,
               rc := { refCount := 1, destroyed := false } }) ∧
    (DxcShimCompiler.makeIncludeHandler utils none userData = none) ∧
    CParamType.callbackFnPtr ∈ DxcShimCompiler.compile_params ∧
    CParamType.voidPtr ∈ DxcShimCompiler.compile_params ∧
    CParamType.callbackFnPtr ∉ dxc_shim_compile_params ∧
    CParamType.voidPtr ∉ dxc_shim_compile_params := by
  refine ⟨rfl, fun cb => rfl, rfl, by decide, by decide, by decide, by decide⟩

/-- Claim C8: for every failed wrapper compile whose diagnostic blob is
non-null, the blob's reported code page selects the decode — CP_UTF8 uses
the raw NUL-terminated bytes directly as the error string, and any other
code page decodes the buffer from UTF-16 to UTF-8 before it is stored. -/
theorem compile_error_decode_by_encoding (utils userData : Nat)
    (userCallback : Option Nat) (env : WrapperCompileEnv)
    (errorBlob : IDxcBlobEncoding)
    (hfail : FAILED env.statusHr = true)
    (hblob : env.errorBlob = some errorBlob) :
    (errorBlob.codePage = CP_UTF8 →
      (DxcShimCompiler.compile utils userCallback userData env).result
        = some (DxcShimCompilationResult.failure
            (errorBlob.bytes.takeWhile (· ≠ 0)))) ∧
    (errorBlob.codePage ≠ CP_UTF8 →
      (DxcShimCompiler.compile utils userCallback userData env).result
        = some (DxcShimCompilationResult.failure
            (utf16_to_utf8 (bytesToU16LE errorBlob.bytes)))) := by
  constructor <;> intro hcp <;>
    simp [DxcShimCompiler.compile, hfail, hblob, hcp]

/-- Claim C8 witness: both decode paths at concrete inputs — a CP_UTF8 blob
keeps its raw bytes up to the NUL, a code page 1200 blob is decoded from
UTF-16LE to the same UTF-8 text. -/
theorem compile_error_decode_by_encoding_witness :
    ((DxcShimCompiler.compile 0 none 0
        { statusHr := -1,
          errorBlob := some { getEncodingHr := 0, codePage := 65001,
                              bytes := [104, 105, 0, 120] },
          bytecodeBytes := [] }).result
      = some (DxcShimCompilationResult.failure [104, 105])) ∧
    ((DxcShimCompiler.compile 0 none 0
        { statusHr := -1,
          errorBlob := some { getEncodingHr := 0, codePage := 1200,
                              bytes := [104, 0, 105, 0, 0, 0] },
          bytecodeBytes := [] }).result
      = some (DxcShimCompilationResult.failure [104, 105])) := by
  constructor
  · exact (compile_error_decode_by_encoding 0 0 none
      { statusHr := -1,
        errorBlob := some { getEncodingHr := 0, codePage := 65001,
                            bytes := [104, 105, 0, 120] },
        bytecodeBytes := [] }
      { getEncodingHr := 0, codePage := 65001, bytes := [104, 105, 0, 120] }
      (by decide) rfl).1 rfl
  · exact (compile_error_decode_by_encoding 0 0 none
      { statusHr := -1,
        errorBlob := some { getEncodingHr := 0, codePage := 1200,
                            bytes := [104, 0, 105, 0, 0, 0] },
        bytecodeBytes := [] }
      { getEncodingHr := 0, codePage := 1200, bytes := [104, 0, 105, 0, 0, 0] }
      (by decide) rfl).2 (by decide)

/-- Claim C9: for every include request handled by the wrapper bridge: a
callback that returns no data yields the E_FAIL resolution-failure code and
no blob (the function is total, so no fault); returned data is wrapped into
a fresh CP_UTF8-tagged blob whose bytes run to the data's NUL terminator
and which is handed back to the caller; and a failing CreateBlob has its
HRESULT returned unchanged. -/
theorem include_bridge_resolve_correct (createBlobHr : Int)
    (userCallback : List Nat → Nat → Option (List Nat)) (userData : Nat)
    (wideFilename : List Nat) :
    (userCallback (utf16_to_utf8 wideFilename) userData = none →
      DxcShimIncludeHandler.LoadSource createBlobHr userCallback userData
          wideFilename
        = (E_FAIL, none)) ∧
    (∀ source, userCallback (utf16_to_utf8 wideFilename) userData = some source →
      (FAILED createBlobHr = true →
        DxcShimIncludeHandler.LoadSource createBlobHr userCallback userData
            wideFilename
          = (createBlobHr, none)) ∧
      (FAILED createBlobHr = false →
        DxcShimIncludeHandler.LoadSource createBlobHr userCallback userData
            wideFilename
          = (S_OK, some { getEncodingHr := S_OK, codePage := CP_UTF8,
                          bytes := source.takeWhile (· ≠ 0) }))) := by
  constructor
  · intro h
    simp [DxcShimIncludeHandler.LoadSource, h]
  · intro source h
    constructor <;> intro h2 <;>
      simp [DxcShimIncludeHandler.LoadSource, h, h2]

/-- Claim C10: every C-shim compile call installs the stub include handler,
whose LoadSource returns E_NOTIMPL and no blob for every requested path,
and the C compile entry point has no callback or context parameter. -/
theorem c_compile_stub_include_handler (env : ShimCompileEnv) (path : List Nat) :
    (dxc_shim_compile env).includeResolver path = (E_NOTIMPL, none) ∧
    IncludeHandler.LoadSource path = (E_NOTIMPL, none) ∧
    CParamType.callbackFnPtr ∉ dxc_shim_compile_params ∧
    CParamType.voidPtr ∉ dxc_shim_compile_params := by
  refine ⟨rfl, rfl, by decide, by decide⟩
